/-
Verification of the weibo_trending pipeline: a shallow embedding of the
three stages (fetcher, summarizer, email notifier) and the orchestrator,
with theorems about their retry, truncation and error-signalling behaviour.

Sources embedded:
  src/src/deepseek_summarizer.py  (retry/backoff/classification engine)
  src/src/weibo_summarizer.py     (single-shot pipeline summarizer)
  src/src/weibo_fetcher.py        (ranking fetch + truncation)
  src/src/weibo_email_notifier.py (SMTP delivery loop + HTML rendering)
  src/main.py                     (orchestrator)

External effects (HTTP requests, the completion API, SMTP sessions) are
modelled by "scripts": a value describing what the external world answers
on each attempt.  Each embedded operation consumes its script and returns
a trace recording the value handed back to the caller together with the
observable side effects (attempts made, sleeps performed, log lines).
-/
import Mathlib

namespace WeiboTrending

/-- Python's notion of ASCII whitespace, as `str.strip()` removes it. -/
def isPyWs (c : Char) : Bool :=
  c == ' ' || c == '\t' || c == '\n' || c == '\r' || c == '\x0b' || c == '\x0c'

/-- Python's `str.strip()`: drop leading and trailing whitespace. -/
def pyStrip (s : String) : String :=
  ⟨((s.data.dropWhile isPyWs).reverse.dropWhile isPyWs).reverse⟩

/-- Python's `str.lower()` (ASCII letters, which is all the classifier
keywords need). -/
def pyLower (s : String) : String :=
  ⟨s.data.map Char.toLower⟩

/-- Base-10 digit accumulation for `pyInt`. -/
def parseDigits : List Char → Nat → Option Nat
  | [], acc => some acc
  | c :: cs, acc =>
      if c.isDigit then parseDigits cs (acc * 10 + (c.toNat - 48)) else none

/-- Python's `int(str)`: strip whitespace, optional sign, at least one
base-10 digit, otherwise `ValueError` (`none` here).  Digit-group
underscores, accepted by Python since 3.6, are not modelled: no weight
string in this pipeline carries them. -/
def pyInt (s : String) : Option Int :=
  let core := fun (cs : List Char) (sign : Int) =>
    if cs.isEmpty then none
    else (parseDigits cs 0).map fun n => sign * (n : Int)
  match (pyStrip s).data with
  | '-' :: cs => core cs (-1)
  | '+' :: cs => core cs 1
  | cs => core cs 1

/-- Whether `pat` is a prefix of `s`, on character lists. -/
def charsPrefix : List Char → List Char → Bool
  | [], _ => true
  | _ :: _, [] => false
  | a :: as, b :: bs => a == b && charsPrefix as bs

/-- Whether `pat` occurs inside `s`, on character lists. -/
def charsInfix (pat : List Char) : List Char → Bool
  | [] => pat.isEmpty
  | c :: cs => charsPrefix pat (c :: cs) || charsInfix pat cs

/-- Substring containment, the model of Python's `in` on strings. -/
def strContains (s pat : String) : Bool :=
  charsInfix pat.data s.data

/-! ## Error-signal classification (deepseek_summarizer.py lines 152-171)

The engine inspects `str(e)` of a caught exception. -/

/-- `"429" in error_msg or "rate limit" in error_msg.lower() or "quota" in
error_msg.lower()` (line 153). -/
def isQuotaError (msg : String) : Bool :=
  strContains msg "429" || strContains (pyLower msg) "rate limit" ||
    strContains (pyLower msg) "quota"

/-- `"500" in error_msg or "503" in error_msg or "service unavailable" in
error_msg.lower()` (line 158). -/
def isServerError (msg : String) : Bool :=
  strContains msg "500" || strContains msg "503" ||
    strContains (pyLower msg) "service unavailable"

/-- `"400" in error_msg or "401" in error_msg or "403" in error_msg or
"404" in error_msg` (line 163). -/
def isClientError (msg : String) : Bool :=
  strContains msg "400" || strContains msg "401" ||
    strContains msg "403" || strContains msg "404"

/-- The four classification outcomes of the `elif` chain, in the chain's
priority order: quota before server before client before generic. -/
inductive ErrorClass : Type
  | quota
  | server
  | client
  | generic
deriving DecidableEq, Repr

/-- The `elif` chain of lines 153-171 as a total classifier. -/
def classifyError (msg : String) : ErrorClass :=
  if isQuotaError msg then .quota
  else if isServerError msg then .server
  else if isClientError msg then .client
  else .generic

/-! ## Backoff formulas (deepseek_summarizer.py lines 154, 159, 169)

`self.retry_delay = 2` (line 50); `attempt` is the 0-based loop index. -/

/-- `wait_time = self.retry_delay * (attempt + 1) * 2` for quota errors. -/
def quotaBackoff (baseDelay attempt : Nat) : Nat :=
  baseDelay * (attempt + 1) * 2

/-- `wait_time = self.retry_delay * (attempt + 1)` for server and generic
errors. -/
def genericBackoff (baseDelay attempt : Nat) : Nat :=
  baseDelay * (attempt + 1)

/-! ## One completion attempt

What the completion API does on one attempt: either the call raises
(modelled by the `str(e)` message) or it returns a response object whose
relevant shape is one of the duck-typed cases inspected in lines 114-134. -/

/-- The shape of a completion response as the code inspects it. -/
inductive ApiResponse : Type
  /-- `if not response:` (line 114): falsy response object. -/
  | empty
  /-- `hasattr(response, 'choices') and response.choices` fails (line 128). -/
  | noChoices
  /-- a choice with neither `message.content` nor `text` (line 125). -/
  | noTextField
  /-- extractable message text (possibly empty or whitespace). -/
  | text (s : String)
deriving DecidableEq, Repr

/-- Outcome of one completion call. -/
inductive AttemptResult : Type
  /-- the call returned a response object. -/
  | ok (r : ApiResponse)
  /-- the call raised; `msg` is `str(e)`. -/
  | exn (msg : String)
deriving DecidableEq, Repr

/-- An attempt yields a Success outcome exactly when a response carries
text that is nonempty after stripping (lines 119-143). -/
def attemptSuccessText : AttemptResult → Option String
  | .ok (.text s) => if pyStrip s = "" then none else some (pyStrip s)
  | _ => none

/-- An attempt aborts the loop exactly when it raises and the chain
classifies the message as a client error (lines 163-165). -/
def attemptIsFatal : AttemptResult → Bool
  | .exn msg => classifyError msg = .client
  | .ok _ => false

/-! ## DeepSeekSummarizer.summarize (deepseek_summarizer.py lines 72-175) -/

/-- `self.max_retries = 3` (line 49). -/
def maxRetries : Nat := 3

/-- `self.retry_delay = 2` (line 50). -/
def retryDelay : Nat := 2

/-- Trace of one `summarize` run: the returned `Optional[str]`, the
`last_error` variable at exit (the last caught exception's message),
the number of loop iterations entered, and the `time.sleep` durations
performed, in order. -/
structure SummarizeTrace : Type where
  result : Option String
  lastError : Option String
  attempts : Nat
  sleeps : List Nat
deriving DecidableEq, Repr

/-- The `for attempt in range(self.max_retries)` loop (lines 98-171).
`script i` is what the API does on the attempt with 0-based index `i`;
`remaining` is the number of loop iterations left (`maxR - i`);
`lastError` and `sleeps` accumulate. -/
def retryLoop (script : Nat → AttemptResult) (maxR baseDelay : Nat) :
    Nat → Nat → Option String → List Nat → SummarizeTrace
  | _, 0, lastError, sleeps =>
      -- loop exhausted: `return None` after logging `last_error` (line 174)
      { result := none, lastError := lastError, attempts := 0,
        sleeps := sleeps }
  | i, remaining + 1, lastError, sleeps =>
      match script i with
      | .ok resp =>
          match resp with
          | .empty =>          -- line 116: `continue`, no delay
              let t := retryLoop script maxR baseDelay (i + 1) remaining
                lastError sleeps
              { t with attempts := t.attempts + 1 }
          | .noChoices =>      -- line 130: `continue`
              let t := retryLoop script maxR baseDelay (i + 1) remaining
                lastError sleeps
              { t with attempts := t.attempts + 1 }
          | .noTextField =>    -- line 127: `continue`
              let t := retryLoop script maxR baseDelay (i + 1) remaining
                lastError sleeps
              { t with attempts := t.attempts + 1 }
          | .text s =>
              if pyStrip s = "" then
                -- lines 132-140: empty or whitespace-only text: `continue`
                let t := retryLoop script maxR baseDelay (i + 1) remaining
                  lastError sleeps
                { t with attempts := t.attempts + 1 }
              else
                -- line 143: `return summary` (the stripped text)
                { result := some (pyStrip s), lastError := lastError,
                  attempts := 1, sleeps := sleeps }
      | .exn msg =>
          -- line 146: `last_error = e`
          match classifyError msg with
          | .quota =>
              -- lines 153-156: sleep retry_delay*(attempt+1)*2, retry
              let t := retryLoop script maxR baseDelay (i + 1) remaining
                (some msg) (sleeps ++ [quotaBackoff baseDelay i])
              { t with attempts := t.attempts + 1 }
          | .server =>
              -- lines 158-161: sleep retry_delay*(attempt+1), retry
              let t := retryLoop script maxR baseDelay (i + 1) remaining
                (some msg) (sleeps ++ [genericBackoff baseDelay i])
              { t with attempts := t.attempts + 1 }
          | .client =>
              -- lines 163-165: `return None`, no further attempts
              { result := none, lastError := some msg, attempts := 1,
                sleeps := sleeps }
          | .generic =>
              -- lines 167-171: sleep only if attempts remain, then retry
              if i < maxR - 1 then
                let t := retryLoop script maxR baseDelay (i + 1) remaining
                  (some msg) (sleeps ++ [genericBackoff baseDelay i])
                { t with attempts := t.attempts + 1 }
              else
                let t := retryLoop script maxR baseDelay (i + 1) remaining
                  (some msg) sleeps
                { t with attempts := t.attempts + 1 }

/-- `DeepSeekSummarizer.summarize(content)` (lines 72-175).  The early
guard of lines 83-85 rejects empty / whitespace-only content before any
attempt; otherwise the retry loop runs with `max_retries = 3`. -/
def deepseekSummarize (content : String) (script : Nat → AttemptResult) :
    SummarizeTrace :=
  if content = "" ∨ pyStrip content = "" then
    { result := none, lastError := none, attempts := 0, sleeps := [] }
  else
    retryLoop script maxRetries retryDelay 0 maxRetries none []

/-- The `last_error` accumulator over the window of `r` attempts starting
at index `i`, seeded with `le`: each raising attempt overwrites it with
its message, non-raising attempts leave it. -/
def lastErrorFrom (script : Nat → AttemptResult) :
    Nat → Nat → Option String → Option String
  | _, 0, le => le
  | i, r + 1, le =>
      match script i with
      | .exn msg => lastErrorFrom script (i + 1) r (some msg)
      | .ok _ => lastErrorFrom script (i + 1) r le

/-- The `last_error` variable after the first `n` scripted attempts all
ran without terminating the loop: the message of the last raising attempt
among them, if any. -/
def lastErrorOf (script : Nat → AttemptResult) (n : Nat) : Option String :=
  lastErrorFrom script 0 n none

/-! ## The topic data model (weibo_fetcher.py, response `result.list`)

Each entry is a dict; every consumer reads it with `.get(key, default)`,
so the model carries the three fields totally, with the `get` defaults
already applied. -/

/-- One trending topic: `hottag`, `hotword`, `hotwordnum`.  `hotwordnum`
arrives as a string and is coerced for display only. -/
structure Topic : Type where
  hottag : String
  hotword : String
  hotwordnum : String
deriving DecidableEq, Repr

/-! ## WeiboFetcher.fetch_hot_topics (weibo_fetcher.py lines 23-64) -/

/-- The parsed JSON envelope: `data.get("code")`, `data.get("msg")`,
`data.get("result", {}).get("list", [])`.  `code` and `msg` are `Option`
because `dict.get` yields `None` for a missing key. -/
structure FetchEnvelope : Type where
  code : Option Int
  msg : Option String
  list : List Topic
deriving DecidableEq, Repr

/-- What the single HTTP request does. -/
inductive FetchResponse : Type
  /-- the request returned and the body parsed to an envelope. -/
  | envelope (env : FetchEnvelope)
  /-- `requests.exceptions.RequestException` (network failure, timeout,
  or `raise_for_status` on an HTTP error status), lines 59-61. -/
  | requestError (msg : String)
  /-- any other exception (e.g. JSON decoding), lines 62-64. -/
  | otherError (msg : String)
deriving DecidableEq, Repr

/-- Trace of one `fetch_hot_topics` call: the list handed to the caller,
the `logger.error` message if the error path ran, and the number of HTTP
requests issued (the code issues exactly one, with no retry). -/
structure FetchTrace : Type where
  topics : List Topic
  errorLogged : Option String
  httpRequests : Nat
deriving DecidableEq, Repr

/-- `WeiboFetcher.fetch_hot_topics(limit=50)` (lines 23-64): one request;
non-200 `code` logs `msg` (default `"未知错误"`) and returns `[]`; success
returns `hot_topics[:limit]`; any exception is caught and returns `[]`. -/
def fetchHotTopics (limit : Nat := 50) (resp : FetchResponse) : FetchTrace :=
  match resp with
  | .requestError msg =>
      { topics := [], errorLogged := some msg, httpRequests := 1 }
  | .otherError msg =>
      { topics := [], errorLogged := some msg, httpRequests := 1 }
  | .envelope env =>
      if env.code ≠ some 200 then
        { topics := [],
          errorLogged := some (env.msg.getD "未知错误"),
          httpRequests := 1 }
      else
        { topics := env.list.take limit, errorLogged := none,
          httpRequests := 1 }

/-! ## WeiboSummarizer.summarize (weibo_summarizer.py lines 35-84)

The pipeline's summarizer makes a single completion call inside one
`try`, with no retry loop and no emptiness guard on the batch. -/

/-- `f"{i+1}. [{t.get('hottag', '')}] {t.get('hotword', '')} (热度:
{t.get('hotwordnum', '0')})"` (line 50), with `i+1` passed in as `i`. -/
def weiboTopicLine (i : Nat) (t : Topic) : String :=
  s!"{i}. [{t.hottag}] {t.hotword} (热度: {t.hotwordnum})"

/-- The `content` string of lines 49-52: the first 30 topics, one line
each, joined by newlines. -/
def weiboContent (topics : List Topic) : String :=
  String.intercalate "\n"
    ((topics.take 30).enum.map fun p => weiboTopicLine (p.1 + 1) p.2)

/-- The prompt of lines 55-67 around the rendered content. -/
def weiboPrompt (content : String) : String :=
  "请对以下微博热搜话题进行智能总结和分析：\n\n" ++ content ++
    "\n\n要求：\n1. 用简洁的语言概括当前的热点话题和趋势\n" ++
    "2. 突出最受关注的热搜内容（前5-10个）\n" ++
    "3. 分析这些热搜背后反映的社会现象或热点事件\n" ++
    "4. 如果有明显的主题分类（如娱乐、科技、社会等），可以分类说明\n" ++
    "5. 总结字数控制在 300-500 字\n6. 使用中文输出\n\n请开始总结："

/-- Trace of one `WeiboSummarizer.summarize` call: the returned
`Optional[str]` and the number of completion API calls issued. -/
structure WeiboSummarizeTrace : Type where
  result : Option String
  apiCalls : Nat
deriving DecidableEq, Repr

/-- `WeiboSummarizer.summarize(topics)` (lines 35-84): always builds the
prompt and issues exactly one completion call; on a response with message
text it returns `text.strip()`; any exception (including a response with
no extractable text, where attribute access raises) is caught by the
`except` of lines 82-84 and yields `None`. -/
def weiboSummarize (topics : List Topic) (api : String → AttemptResult) :
    WeiboSummarizeTrace :=
  match api (weiboPrompt (weiboContent topics)) with
  | .ok (.text s) => { result := some (pyStrip s), apiCalls := 1 }
  | .ok _ => { result := none, apiCalls := 1 }
  | .exn _ => { result := none, apiCalls := 1 }

/-! ## Heat formatting (weibo_email_notifier.py lines 100-107, and the
identical snippet in weibo_fetcher.py lines 89-96) -/

/-- `int(hotwordnum)`; on success, values at least 10000 render as
`f"{heat/10000:.1f}万"` (one decimal of 万 = 10000), smaller ones as the
plain integer; a coercion failure falls back to the raw string.  The one
decimal is computed here as integer rounding half away from zero on the
tenths digit; Python rounds the binary double to nearest-even instead,
which can differ at exact or near decimal ties of `heat/1000`. -/
def formatHeat (hotwordnum : String) : String :=
  match pyInt hotwordnum with
  | some heat =>
      if heat ≥ 10000 then
        let tenths : Int := (heat + 500) / 1000
        s!"{tenths / 10}.{tenths % 10}万"
      else toString heat
  | none => hotwordnum

/-! ## WeiboEmailNotifier._generate_html (weibo_email_notifier.py
lines 81-175) -/

/-- Tag colour of line 110: `"#ff6b6b" if hottag == "热" else "#4ecdc4"
if hottag == "新" else "#95e1d3"`. -/
def tagColor (hottag : String) : String :=
  if hottag = "热" then "#ff6b6b"
  else if hottag = "新" then "#4ecdc4"
  else "#95e1d3"

/-- The `tag_html` fragment of line 111: a styled span when the tag is
nonempty, the empty string otherwise. -/
def tagHtml (hottag : String) : String :=
  if hottag = "" then ""
  else
    s!"<span style=\"background-color: {tagColor hottag}; " ++
      "color: white; padding: 2px 6px; border-radius: 3px; " ++
      s!"font-size: 12px; margin-right: 8px;\">{hottag}</span>"

/-- The lookup link of line 114. -/
def weiboUrl (t : Topic) : String :=
  "https://s.weibo.com/weibo?q=" ++ t.hotword

/-- One `<tr>` row of the topic table (lines 116-125), for the 1-based
rank `i`. -/
def topicRowHtml (i : Nat) (t : Topic) : String :=
  "<tr style=\"border-bottom: 1px solid #eee;\">" ++
    s!"<td style=\"padding: 12px 8px; text-align: center; color: #999; width: 40px;\">{i}</td>" ++
    s!"<td style=\"padding: 12px 8px;\">{tagHtml t.hottag}" ++
    s!"<a href=\"{weiboUrl t}\" style=\"color: #333; text-decoration: none; font-size: 14px;\">{t.hotword}</a></td>" ++
    s!"<td style=\"padding: 12px 8px; text-align: right; color: #ff6b6b; font-weight: bold; width: 100px;\">{formatHeat t.hotwordnum}</td>" ++
    "</tr>"

/-- The rows of the table, one per displayed topic: the loop of line 94,
`for i, topic in enumerate(topics[:30], 1)` — only the first 30 topics
produce a row. -/
def generateTopicRows (topics : List Topic) : List String :=
  (topics.take 30).enum.map fun p => topicRowHtml (p.1 + 1) p.2

/-- `_generate_html(summary, topics)` (lines 81-175): the full message
body, with the `datetime.now()` renderings passed in as `dateStr` and
`timeStr`.  The surrounding boilerplate (head, header, footer) is kept
structurally; the summary block and the topic table embed the payloads. -/
def generateHtml (summary : String) (topics : List Topic)
    (dateStr timeStr : String) : String :=
  "<!DOCTYPE html><html><head><meta charset=\"utf-8\">" ++
    "<meta name=\"viewport\" content=\"width=device-width, initial-scale=1.0\"></head><body>" ++
    s!"<h1>📱 微博热搜榜</h1><p>{dateStr}</p>" ++
    s!"<h2>🤖 AI 智能总结</h2><div>{summary}</div>" ++
    "<h2>🔥 热搜榜单（Top 30）</h2><table>" ++
    String.join (generateTopicRows topics) ++
    "</table><p>数据来源：微博热搜榜 | 由 AI 自动生成</p>" ++
    s!"<p>更新时间：{timeStr}</p></body></html>"

/-! ## WeiboEmailNotifier.send_email (weibo_email_notifier.py
lines 33-79) -/

/-- What one SMTP delivery attempt (open, login, send, close) does. -/
inductive SmtpOutcome : Type
  /-- the session completed and the message was transmitted. -/
  | delivered
  /-- the attempt raised `smtplib.SMTPException` with this message. -/
  | smtpExn (msg : String)
  /-- the attempt raised some other exception (socket-level connection
  failure, timeout, ...) with this message. -/
  | otherExn (msg : String)
deriving DecidableEq, Repr

/-- Trace of one `send_email` call: the returned bool and the number of
delivery attempts (SMTP sessions opened). -/
structure SendTrace : Type where
  ok : Bool
  attempts : Nat
deriving DecidableEq, Repr

/-- The `for attempt in range(3)` loop of lines 59-73, plus the handlers
around it.  `script i` is what the session on attempt `i` (0-based) does.
A delivered attempt returns `True`.  An `smtplib.SMTPException` is caught
by the inner handler and retried, except on attempt index 2 where it is
re-raised, reaches the outer handler and yields `False`.  Any other
exception skips the inner handler, reaches the outer handler at once and
yields `False`.  Falling off the loop returns `False` (line 75). -/
def sendLoop (script : Nat → SmtpOutcome) : Nat → Nat → SendTrace
  | _, 0 => { ok := false, attempts := 0 }
  | i, remaining + 1 =>
      match script i with
      | .delivered => { ok := true, attempts := 1 }
      | .smtpExn _ =>
          if i = 2 then { ok := false, attempts := 1 }
          else
            let t := sendLoop script (i + 1) remaining
            { ok := t.ok, attempts := t.attempts + 1 }
      | .otherExn _ => { ok := false, attempts := 1 }

/-- `WeiboEmailNotifier.send_email(summary, topics)` (lines 33-79). -/
def sendEmail (script : Nat → SmtpOutcome) : SendTrace :=
  sendLoop script 0 3

/-! ## The orchestrator (main.py lines 28-124)

Modelled after the configuration checks have passed: `main` fetches with
`limit=50`, aborts when the batch is falsy, constructs the summarizer and
summarizes, aborts when the summary is falsy, constructs the notifier
and delivers, and maps the notifier's bool to the verdict.  The spec's
`PipelineResult` names the observable verdict; the event list records
which collaborators were constructed and called, in order. -/

/-- Terminal verdict of one run (spec §3 `PipelineResult`): `main`'s
`True` is `Delivered`, each early `return False` is `Aborted` at the
stage that produced it. -/
inductive PipelineResult : Type
  | Delivered
  | Aborted (stage : String)
deriving DecidableEq, Repr

/-- Observable collaborator events of one run, in program order. -/
inductive Event : Type
  | fetchCall
  | summarizerInit
  | summarizeCall
  | notifierInit
  | deliverCall
deriving DecidableEq, Repr

/-- `main()` (main.py lines 62-120), under the three external scripts. -/
def mainPipeline (resp : FetchResponse) (api : String → AttemptResult)
    (smtp : Nat → SmtpOutcome) : PipelineResult × List Event :=
  let f := fetchHotTopics 50 resp
  if f.topics.isEmpty then
    (.Aborted "fetch", [.fetchCall])
  else
    let s := weiboSummarize f.topics api
    match s.result with
    | none =>
        (.Aborted "summarize", [.fetchCall, .summarizerInit, .summarizeCall])
    | some summary =>
        if summary = "" then
          (.Aborted "summarize",
            [.fetchCall, .summarizerInit, .summarizeCall])
        else
          let d := sendEmail smtp
          if d.ok then
            (.Delivered,
              [.fetchCall, .summarizerInit, .summarizeCall,
                .notifierInit, .deliverCall])
          else
            (.Aborted "deliver",
              [.fetchCall, .summarizerInit, .summarizeCall,
                .notifierInit, .deliverCall])

/-! ## Helper lemmas about the retry loop -/

/-- The loop never makes more attempts than it has iterations left. -/
theorem retryLoop_attempts_le (script : Nat → AttemptResult)
    (maxR base : Nat) :
    ∀ r i le sleeps,
      (retryLoop script maxR base i r le sleeps).attempts ≤ r := by
  intro r
  induction r with
  | zero =>
      intro i le sleeps
      simp [retryLoop]
  | succ n ih =>
      intro i le sleeps
      rcases h : script i with resp | msg
      · rcases resp with _ | _ | _ | s
        · simpa [retryLoop, h] using Nat.succ_le_succ (ih (i + 1) le sleeps)
        · simpa [retryLoop, h] using Nat.succ_le_succ (ih (i + 1) le sleeps)
        · simpa [retryLoop, h] using Nat.succ_le_succ (ih (i + 1) le sleeps)
        · by_cases hs : pyStrip s = ""
          · simpa [retryLoop, h, hs] using
              Nat.succ_le_succ (ih (i + 1) le sleeps)
          · simp [retryLoop, h, hs]
      · rcases hc : classifyError msg
        · simpa [retryLoop, h, hc] using
            Nat.succ_le_succ
              (ih (i + 1) (some msg) (sleeps ++ [quotaBackoff base i]))
        · simpa [retryLoop, h, hc] using
            Nat.succ_le_succ
              (ih (i + 1) (some msg) (sleeps ++ [genericBackoff base i]))
        · simp [retryLoop, h, hc]
        · by_cases hi : i < maxR - 1
          · simpa [retryLoop, h, hc, hi] using
              Nat.succ_le_succ
                (ih (i + 1) (some msg) (sleeps ++ [genericBackoff base i]))
          · simpa [retryLoop, h, hc, hi] using
              Nat.succ_le_succ (ih (i + 1) (some msg) sleeps)

/-- When every attempt in the window neither succeeds nor is fatal, the
loop consumes the whole window, returns `None` and ends with the last
raising attempt's message in `last_error`. -/
theorem retryLoop_exhausts (script : Nat → AttemptResult)
    (maxR base : Nat) :
    ∀ r i le sleeps,
      (∀ k, k < r → attemptSuccessText (script (i + k)) = none ∧
        attemptIsFatal (script (i + k)) = false) →
      (retryLoop script maxR base i r le sleeps).result = none ∧
      (retryLoop script maxR base i r le sleeps).attempts = r ∧
      (retryLoop script maxR base i r le sleeps).lastError =
        lastErrorFrom script i r le := by
  intro r
  induction r with
  | zero =>
      intro i le sleeps _
      simp [retryLoop, lastErrorFrom]
  | succ n ih =>
      intro i le sleeps hw
      have h0 := hw 0 (Nat.succ_pos n)
      simp only [Nat.add_zero] at h0
      have hw' : ∀ k, k < n → attemptSuccessText (script (i + 1 + k)) = none ∧
          attemptIsFatal (script (i + 1 + k)) = false := by
        intro k hk
        have hidx : i + (k + 1) = i + 1 + k := by omega
        simpa [hidx] using hw (k + 1) (Nat.succ_lt_succ hk)
      rcases h : script i with resp | msg
      · rcases resp with _ | _ | _ | s
        · obtain ⟨h1, h2, h3⟩ := ih (i + 1) le sleeps hw'
          simp [retryLoop, h, lastErrorFrom, h1, h2, h3]
        · obtain ⟨h1, h2, h3⟩ := ih (i + 1) le sleeps hw'
          simp [retryLoop, h, lastErrorFrom, h1, h2, h3]
        · obtain ⟨h1, h2, h3⟩ := ih (i + 1) le sleeps hw'
          simp [retryLoop, h, lastErrorFrom, h1, h2, h3]
        · have hs : pyStrip s = "" := by
            by_contra hs
            simp [attemptSuccessText, h, hs] at h0
          obtain ⟨h1, h2, h3⟩ := ih (i + 1) le sleeps hw'
          simp [retryLoop, h, hs, lastErrorFrom, h1, h2, h3]
      · have hcne : classifyError msg ≠ .client := by
          have := h0.2
          simp [attemptIsFatal, h] at this
          exact this
        rcases hc : classifyError msg
        · obtain ⟨h1, h2, h3⟩ :=
            ih (i + 1) (some msg) (sleeps ++ [quotaBackoff base i]) hw'
          simp [retryLoop, h, hc, lastErrorFrom, h1, h2, h3]
        · obtain ⟨h1, h2, h3⟩ :=
            ih (i + 1) (some msg) (sleeps ++ [genericBackoff base i]) hw'
          simp [retryLoop, h, hc, lastErrorFrom, h1, h2, h3]
        · exact absurd hc hcne
        · by_cases hi : i < maxR - 1
          · obtain ⟨h1, h2, h3⟩ :=
              ih (i + 1) (some msg) (sleeps ++ [genericBackoff base i]) hw'
            simp [retryLoop, h, hc, hi, lastErrorFrom, h1, h2, h3]
          · obtain ⟨h1, h2, h3⟩ := ih (i + 1) (some msg) sleeps hw'
            simp [retryLoop, h, hc, hi, lastErrorFrom, h1, h2, h3]

/-- When the first success outcome in the window stands at relative index
`j` and nothing before it succeeds or is fatal, the loop returns that
attempt's stripped text after exactly `j + 1` attempts. -/
theorem retryLoop_succeeds (script : Nat → AttemptResult)
    (maxR base : Nat) :
    ∀ j r i le sleeps t,
      j < r →
      (∀ k, k < j → attemptSuccessText (script (i + k)) = none ∧
        attemptIsFatal (script (i + k)) = false) →
      attemptSuccessText (script (i + j)) = some t →
      (retryLoop script maxR base i r le sleeps).result = some t ∧
      (retryLoop script maxR base i r le sleeps).attempts = j + 1 := by
  intro j
  induction j with
  | zero =>
      intro r i le sleeps t hr _ hs
      obtain ⟨n, rfl⟩ : ∃ n, r = n + 1 := ⟨r - 1, by omega⟩
      simp only [Nat.add_zero] at hs
      rcases h : script i with resp | msg
      · rcases resp with _ | _ | _ | s
        · simp [attemptSuccessText, h] at hs
        · simp [attemptSuccessText, h] at hs
        · simp [attemptSuccessText, h] at hs
        · rw [h] at hs
          by_cases htrim : pyStrip s = ""
          · simp [attemptSuccessText, htrim] at hs
          · have ht : t = pyStrip s := by
              simp [attemptSuccessText, htrim] at hs
              exact hs.symm
            simp [retryLoop, h, htrim, ht]
      · simp [attemptSuccessText, h] at hs
  | succ m ih =>
      intro r i le sleeps t hr hw hs
      obtain ⟨n, rfl⟩ : ∃ n, r = n + 1 := ⟨r - 1, by omega⟩
      have h0 := hw 0 (Nat.succ_pos m)
      simp only [Nat.add_zero] at h0
      have hw' : ∀ k, k < m → attemptSuccessText (script (i + 1 + k)) = none ∧
          attemptIsFatal (script (i + 1 + k)) = false := by
        intro k hk
        have hidx : i + (k + 1) = i + 1 + k := by omega
        simpa [hidx] using hw (k + 1) (Nat.succ_lt_succ hk)
      have hs' : attemptSuccessText (script (i + 1 + m)) = some t := by
        have hidx : i + (m + 1) = i + 1 + m := by omega
        simpa [hidx] using hs
      have hm : m < n := by omega
      rcases h : script i with resp | msg
      · rcases resp with _ | _ | _ | s
        · obtain ⟨h1, h2⟩ := ih n (i + 1) le sleeps t hm hw' hs'
          simp [retryLoop, h, h1, h2]
        · obtain ⟨h1, h2⟩ := ih n (i + 1) le sleeps t hm hw' hs'
          simp [retryLoop, h, h1, h2]
        · obtain ⟨h1, h2⟩ := ih n (i + 1) le sleeps t hm hw' hs'
          simp [retryLoop, h, h1, h2]
        · have htrim : pyStrip s = "" := by
            by_contra htrim
            simp [attemptSuccessText, h, htrim] at h0
          obtain ⟨h1, h2⟩ := ih n (i + 1) le sleeps t hm hw' hs'
          simp [retryLoop, h, htrim, h1, h2]
      · have hcne : classifyError msg ≠ .client := by
          have := h0.2
          simp [attemptIsFatal, h] at this
          exact this
        rcases hc : classifyError msg
        · obtain ⟨h1, h2⟩ :=
            ih n (i + 1) (some msg) (sleeps ++ [quotaBackoff base i]) t hm hw' hs'
          simp [retryLoop, h, hc, h1, h2]
        · obtain ⟨h1, h2⟩ :=
            ih n (i + 1) (some msg) (sleeps ++ [genericBackoff base i]) t hm hw' hs'
          simp [retryLoop, h, hc, h1, h2]
        · exact absurd hc hcne
        · by_cases hi : i < maxR - 1
          · obtain ⟨h1, h2⟩ :=
              ih n (i + 1) (some msg) (sleeps ++ [genericBackoff base i]) t hm hw' hs'
            simp [retryLoop, h, hc, hi, h1, h2]
          · obtain ⟨h1, h2⟩ := ih n (i + 1) (some msg) sleeps t hm hw' hs'
            simp [retryLoop, h, hc, hi, h1, h2]

/-- When the attempt at relative index `j` raises a client-classified
error and nothing before it succeeds or is fatal, the loop stops there:
`None` after exactly `j + 1` attempts, `last_error` that message. -/
theorem retryLoop_fatal (script : Nat → AttemptResult)
    (maxR base : Nat) :
    ∀ j r i le sleeps msg,
      j < r →
      (∀ k, k < j → attemptSuccessText (script (i + k)) = none ∧
        attemptIsFatal (script (i + k)) = false) →
      script (i + j) = .exn msg →
      classifyError msg = .client →
      (retryLoop script maxR base i r le sleeps).result = none ∧
      (retryLoop script maxR base i r le sleeps).attempts = j + 1 ∧
      (retryLoop script maxR base i r le sleeps).lastError = some msg := by
  intro j
  induction j with
  | zero =>
      intro r i le sleeps msg hr _ hj hc
      obtain ⟨n, rfl⟩ : ∃ n, r = n + 1 := ⟨r - 1, by omega⟩
      simp only [Nat.add_zero] at hj
      simp [retryLoop, hj, hc]
  | succ m ih =>
      intro r i le sleeps msg hr hw hj hc
      obtain ⟨n, rfl⟩ : ∃ n, r = n + 1 := ⟨r - 1, by omega⟩
      have h0 := hw 0 (Nat.succ_pos m)
      simp only [Nat.add_zero] at h0
      have hw' : ∀ k, k < m → attemptSuccessText (script (i + 1 + k)) = none ∧
          attemptIsFatal (script (i + 1 + k)) = false := by
        intro k hk
        have hidx : i + (k + 1) = i + 1 + k := by omega
        simpa [hidx] using hw (k + 1) (Nat.succ_lt_succ hk)
      have hj' : script (i + 1 + m) = .exn msg := by
        have hidx : i + (m + 1) = i + 1 + m := by omega
        rw [hidx] at hj
        exact hj
      have hm : m < n := by omega
      rcases h : script i with resp | msg'
      · rcases resp with _ | _ | _ | s
        · obtain ⟨h1, h2, h3⟩ := ih n (i + 1) le sleeps msg hm hw' hj' hc
          simp [retryLoop, h, h1, h2, h3]
        · obtain ⟨h1, h2, h3⟩ := ih n (i + 1) le sleeps msg hm hw' hj' hc
          simp [retryLoop, h, h1, h2, h3]
        · obtain ⟨h1, h2, h3⟩ := ih n (i + 1) le sleeps msg hm hw' hj' hc
          simp [retryLoop, h, h1, h2, h3]
        · have htrim : pyStrip s = "" := by
            by_contra htrim
            simp [attemptSuccessText, h, htrim] at h0
          obtain ⟨h1, h2, h3⟩ := ih n (i + 1) le sleeps msg hm hw' hj' hc
          simp [retryLoop, h, htrim, h1, h2, h3]
      · have hcne : classifyError msg' ≠ .client := by
          have := h0.2
          simp [attemptIsFatal, h] at this
          exact this
        rcases hc' : classifyError msg'
        · obtain ⟨h1, h2, h3⟩ :=
            ih n (i + 1) (some msg') (sleeps ++ [quotaBackoff base i]) msg hm hw' hj' hc
          simp [retryLoop, h, hc', h1, h2, h3]
        · obtain ⟨h1, h2, h3⟩ :=
            ih n (i + 1) (some msg') (sleeps ++ [genericBackoff base i]) msg hm hw' hj' hc
          simp [retryLoop, h, hc', h1, h2, h3]
        · exact absurd hc' hcne
        · by_cases hi : i < maxR - 1
          · obtain ⟨h1, h2, h3⟩ :=
              ih n (i + 1) (some msg') (sleeps ++ [genericBackoff base i]) msg hm hw' hj' hc
            simp [retryLoop, h, hc', hi, h1, h2, h3]
          · obtain ⟨h1, h2, h3⟩ := ih n (i + 1) (some msg') sleeps msg hm hw' hj' hc
            simp [retryLoop, h, hc', hi, h1, h2, h3]

/-! ## Claim theorems -/

/-- C1: For every batch (content) the Summarizer accepts, the completion
call is attempted up to `maxRetries = 3` times; if all attempts are
exhausted without a Success outcome the run returns `None` with the last
observed exception message as `last_error`; a Success outcome returns the
stripped completion text (both in the retry engine and in the pipeline's
single-shot summarizer). -/
theorem summarize_retry_budget_and_outcomes
    (content : String) (script : Nat → AttemptResult)
    (hacc : pyStrip content ≠ "") :
    maxRetries = 3 ∧
    (deepseekSummarize content script).attempts ≤ maxRetries ∧
    ((∀ k, k < maxRetries → attemptSuccessText (script k) = none ∧
        attemptIsFatal (script k) = false) →
      (deepseekSummarize content script).result = none ∧
      (deepseekSummarize content script).attempts = maxRetries ∧
      (deepseekSummarize content script).lastError =
        lastErrorOf script maxRetries) ∧
    (∀ j s, j < maxRetries →
      (∀ k, k < j → attemptSuccessText (script k) = none ∧
        attemptIsFatal (script k) = false) →
      script j = .ok (.text s) → pyStrip s ≠ "" →
      (deepseekSummarize content script).result = some (pyStrip s)) ∧
    (∀ (topics : List Topic) (api : String → AttemptResult) (s : String),
      api (weiboPrompt (weiboContent topics)) = .ok (.text s) →
      (weiboSummarize topics api).result = some (pyStrip s)) := by
  have hguard : ¬(content = "" ∨ pyStrip content = "") := by
    rintro (h | h)
    · exact hacc (by rw [h]; rfl)
    · exact hacc h
  have hds : deepseekSummarize content script =
      retryLoop script maxRetries retryDelay 0 maxRetries none [] := by
    rw [deepseekSummarize, if_neg hguard]
  refine ⟨rfl, ?_, ?_, ?_, ?_⟩
  · rw [hds]
    exact retryLoop_attempts_le script maxRetries retryDelay maxRetries 0
      none []
  · intro hw
    have hw0 : ∀ k, k < maxRetries →
        attemptSuccessText (script (0 + k)) = none ∧
        attemptIsFatal (script (0 + k)) = false := by
      intro k hk
      simpa using hw k hk
    have h := retryLoop_exhausts script maxRetries retryDelay maxRetries 0
      none [] hw0
    rw [hds]
    exact ⟨h.1, h.2.1, by simpa [lastErrorOf] using h.2.2⟩
  · intro j s hj hw hscript hs
    have hw0 : ∀ k, k < j → attemptSuccessText (script (0 + k)) = none ∧
        attemptIsFatal (script (0 + k)) = false := by
      intro k hk
      simpa using hw k hk
    have hsucc : attemptSuccessText (script (0 + j)) = some (pyStrip s) := by
      simp [attemptSuccessText, hscript, hs]
    have h := retryLoop_succeeds script maxRetries retryDelay j maxRetries 0
      none [] (pyStrip s) hj hw0 hsucc
    rw [hds]
    exact h.1
  · intro topics api s h
    simp [weiboSummarize, h]

/-- C1 witness: a first-attempt success on concrete inputs returns the
stripped text. -/
theorem summarize_retry_budget_and_outcomes_witness :
    (deepseekSummarize "topics" (fun _ => .ok (.text " ok "))).result =
      some "ok" := by
  have h := (summarize_retry_budget_and_outcomes "topics"
      (fun _ => .ok (.text " ok ")) (by decide)).2.2.2.1 0 " ok "
      (by decide) (fun k hk => absurd hk (Nat.not_lt_zero k)) rfl (by decide)
  rw [h]
  decide

/-- C2: An attempt whose error signal the chain classifies as a client
error makes the Summarizer return `None` immediately, after exactly that
attempt; in particular such an error on the first attempt means exactly
one completion attempt. -/
theorem client_error_aborts_retry
    (content : String) (script : Nat → AttemptResult) (i : Nat)
    (msg : String)
    (hacc : pyStrip content ≠ "")
    (hi : i < maxRetries)
    (hw : ∀ k, k < i → attemptSuccessText (script k) = none ∧
      attemptIsFatal (script k) = false)
    (hexn : script i = .exn msg)
    (hclass : classifyError msg = .client) :
    (deepseekSummarize content script).result = none ∧
    (deepseekSummarize content script).attempts = i + 1 ∧
    (i = 0 → (deepseekSummarize content script).attempts = 1) := by
  have hguard : ¬(content = "" ∨ pyStrip content = "") := by
    rintro (h | h)
    · exact hacc (by rw [h]; rfl)
    · exact hacc h
  have hds : deepseekSummarize content script =
      retryLoop script maxRetries retryDelay 0 maxRetries none [] := by
    rw [deepseekSummarize, if_neg hguard]
  have hw0 : ∀ k, k < i → attemptSuccessText (script (0 + k)) = none ∧
      attemptIsFatal (script (0 + k)) = false := by
    intro k hk
    simpa using hw k hk
  have hexn0 : script (0 + i) = .exn msg := by
    simpa using hexn
  have h := retryLoop_fatal script maxRetries retryDelay i maxRetries 0
    none [] msg hi hw0 hexn0 hclass
  rw [hds]
  exact ⟨h.1, h.2.1, fun h0 => by rw [h.2.1, h0]⟩

/-- C2 witness: a 401-classified error on the first attempt yields `None`
after exactly one attempt. -/
theorem client_error_aborts_retry_witness :
    (deepseekSummarize "topics" (fun _ => .exn "401 Unauthorized")).result =
        none ∧
    (deepseekSummarize "topics"
        (fun _ => .exn "401 Unauthorized")).attempts = 1 := by
  have h := client_error_aborts_retry "topics"
    (fun _ => .exn "401 Unauthorized") 0 "401 Unauthorized" (by decide)
    (by decide) (fun k hk => absurd hk (Nat.not_lt_zero k)) rfl (by decide)
  exact ⟨h.1, h.2.2 rfl⟩

/-- C4: With a base delay of at least 1, the quota backoff
`baseDelay * (i + 1) * 2` is strictly increasing in the attempt index and
strictly greater than the generic backoff `baseDelay * (i + 1)` at the
same index. -/
theorem quota_backoff_dominates (baseDelay i : Nat) (hb : 1 ≤ baseDelay) :
    quotaBackoff baseDelay i < quotaBackoff baseDelay (i + 1) ∧
    genericBackoff baseDelay i < quotaBackoff baseDelay i := by
  unfold quotaBackoff genericBackoff
  constructor
  · nlinarith
  · nlinarith

/-- C4 witness: at the code's base delay 2 and attempt index 0. -/
theorem quota_backoff_dominates_witness :
    quotaBackoff retryDelay 0 < quotaBackoff retryDelay 1 ∧
    genericBackoff retryDelay 0 < quotaBackoff retryDelay 0 :=
  quota_backoff_dominates retryDelay 0 (by decide)

/-- C3 counterexample: the pipeline's summarizer, given an empty topic
batch, still issues one completion call and returns a Success outcome
when the call yields text — refuting "Fatal, never Success, and no
network call" on an empty batch. -/
theorem empty_batch_still_calls_api :
    (weiboSummarize [] (fun _ => .ok (.text "SUMMARY"))).result =
        some "SUMMARY" ∧
    (weiboSummarize [] (fun _ => .ok (.text "SUMMARY"))).apiCalls = 1 :=
  ⟨rfl, rfl⟩

/-- C3 amended: the retry-engine summarizer rejects empty or
whitespace-only content with `None` and zero completion attempts, while
the pipeline's summarizer performs no emptiness check and issues exactly
one completion call whatever the batch. -/
theorem empty_content_rejected_without_call :
    (∀ (content : String) (script : Nat → AttemptResult),
      pyStrip content = "" →
      deepseekSummarize content script =
        { result := none, lastError := none, attempts := 0,
          sleeps := [] }) ∧
    (∀ (topics : List Topic) (api : String → AttemptResult),
      (weiboSummarize topics api).apiCalls = 1) := by
  constructor
  · intro content script h
    rw [deepseekSummarize, if_pos (Or.inr h)]
  · intro topics api
    rcases h : api (weiboPrompt (weiboContent topics)) with r | m
    · rcases r with _ | _ | _ | s <;> simp [weiboSummarize, h]
    · simp [weiboSummarize, h]

/-- C3 amended witness: whitespace-only content is rejected with no
attempt. -/
theorem empty_content_rejected_without_call_witness :
    deepseekSummarize "   " (fun _ => .ok (.text "ignored")) =
      { result := none, lastError := none, attempts := 0, sleeps := [] } :=
  empty_content_rejected_without_call.1 "   " _ (by decide)

/-- C5 counterexample: a non-SMTP transport exception (a socket-level
connection failure) on the first delivery attempt is not retried — the
call returns `False` after one attempt even though the next attempt would
deliver — while the same scenario with an SMTP exception is retried and
succeeds.  The notifier therefore does distinguish transport failure
subtypes. -/
theorem non_smtp_exception_not_retried :
    sendEmail (fun i =>
        if i = 0 then .otherExn "connection refused" else .delivered) =
      { ok := false, attempts := 1 } ∧
    sendEmail (fun i =>
        if i = 0 then .smtpExn "530 authentication failed"
        else .delivered) =
      { ok := true, attempts := 2 } :=
  ⟨rfl, rfl⟩

/-- C5 amended: the delivery cycle is retried up to 3 times on
`smtplib.SMTPException` specifically, with no distinction among SMTP
exception subtypes; any other transport exception aborts the delivery at
once with `False`; after the third failed SMTP attempt the last exception
propagates and is surfaced as `False`. -/
theorem send_email_retry_policy (script : Nat → SmtpOutcome) :
    (sendEmail script).attempts ≤ 3 ∧
    ((∀ i, i < 3 → ∃ m, script i = SmtpOutcome.smtpExn m) →
      sendEmail script = { ok := false, attempts := 3 }) ∧
    (∀ m, script 0 = SmtpOutcome.otherExn m →
      sendEmail script = { ok := false, attempts := 1 }) ∧
    (∀ j, j < 3 →
      (∀ k, k < j → ∃ m, script k = SmtpOutcome.smtpExn m) →
      script j = SmtpOutcome.delivered →
      sendEmail script = { ok := true, attempts := j + 1 }) := by
  refine ⟨?_, ?_, ?_, ?_⟩
  · rcases h0 : script 0 <;> rcases h1 : script 1 <;> rcases h2 : script 2 <;>
      simp [sendEmail, sendLoop, h0, h1, h2]
  · intro h
    obtain ⟨m0, h0⟩ := h 0 (by omega)
    obtain ⟨m1, h1⟩ := h 1 (by omega)
    obtain ⟨m2, h2⟩ := h 2 (by omega)
    simp [sendEmail, sendLoop, h0, h1, h2]
  · intro m h0
    simp [sendEmail, sendLoop, h0]
  · intro j hj hw hd
    interval_cases j
    · simp [sendEmail, sendLoop, hd]
    · obtain ⟨m0, h0⟩ := hw 0 (by omega)
      simp [sendEmail, sendLoop, h0, hd]
    · obtain ⟨m0, h0⟩ := hw 0 (by omega)
      obtain ⟨m1, h1⟩ := hw 1 (by omega)
      simp [sendEmail, sendLoop, h0, h1, hd]

/-- C5 amended witness: three SMTP failures exhaust the budget and
surface `False`. -/
theorem send_email_retry_policy_witness :
    sendEmail (fun _ => SmtpOutcome.smtpExn "530 authentication failed") =
      { ok := false, attempts := 3 } :=
  (send_email_retry_policy _).2.1
    (fun _ _ => ⟨"530 authentication failed", rfl⟩)

/-- C6 counterexample: two non-200 envelopes with different provider
messages produce the same caller-visible value, the empty list — the
provider's message is not carried to the caller (it is only logged). -/
theorem provider_message_not_returned_to_caller :
    (fetchHotTopics 50 (.envelope
        { code := some 250, msg := some "API quota exhausted",
          list := [{ hottag := "热", hotword := "话题",
                     hotwordnum := "123" }] })).topics =
      (fetchHotTopics 50 (.envelope
        { code := some 250, msg := some "invalid API key",
          list := [{ hottag := "热", hotword := "话题",
                     hotwordnum := "123" }] })).topics ∧
    (fetchHotTopics 50 (.envelope
        { code := some 250, msg := some "API quota exhausted",
          list := [{ hottag := "热", hotword := "话题",
                     hotwordnum := "123" }] })).topics = [] ∧
    ("API quota exhausted" : String) ≠ "invalid API key" :=
  ⟨rfl, rfl, by decide⟩

/-- C6 amended: a non-200 status code makes fetch return the empty list
to the caller after its single request, with the provider's message (or
the default) written to the error log, not to the returned value. -/
theorem non200_fetch_logs_message_returns_empty
    (limit : Nat) (env : FetchEnvelope) (h : env.code ≠ some 200) :
    fetchHotTopics limit (.envelope env) =
      { topics := [], errorLogged := some (env.msg.getD "未知错误"),
        httpRequests := 1 } := by
  simp [fetchHotTopics, h]

/-- C6 amended witness: a concrete rejected envelope. -/
theorem non200_fetch_logs_message_returns_empty_witness :
    fetchHotTopics 50 (.envelope
        { code := some 130, msg := some "key error", list := [] }) =
      { topics := [], errorLogged := some "key error",
        httpRequests := 1 } :=
  non200_fetch_logs_message_returns_empty 50 _ (by decide)

/-- C7: On a 200 envelope, fetch returns exactly the first `limit`
entries of the provider's list, order-preserved: the whole list when it
is short enough, a length-`min limit length` prefix otherwise, pointwise
equal to the original, never padded. -/
theorem fetch_truncates_to_limit (limit : Nat) (env : FetchEnvelope)
    (h : env.code = some 200) :
    (fetchHotTopics limit (.envelope env)).topics = env.list.take limit ∧
    (env.list.length ≤ limit →
      (fetchHotTopics limit (.envelope env)).topics = env.list) ∧
    (fetchHotTopics limit (.envelope env)).topics.length =
      min limit env.list.length ∧
    (∀ i, i < limit →
      (fetchHotTopics limit (.envelope env)).topics[i]? =
        env.list[i]?) := by
  have ht : (fetchHotTopics limit (.envelope env)).topics =
      env.list.take limit := by
    simp [fetchHotTopics, h]
  refine ⟨ht, ?_, ?_, ?_⟩
  · intro hle
    rw [ht]
    exact List.take_of_length_le hle
  · rw [ht]
    exact List.length_take limit env.list
  · intro i hi
    rw [ht]
    exact List.getElem?_take_of_lt hi

/-- C7 witness: limit 2 on a 3-element list keeps the first two. -/
theorem fetch_truncates_to_limit_witness :
    (fetchHotTopics 2 (.envelope
        { code := some 200, msg := none,
          list := [⟨"热", "a", "1"⟩, ⟨"", "b", "2"⟩, ⟨"新", "c", "3"⟩] })).topics =
      [⟨"热", "a", "1"⟩, ⟨"", "b", "2"⟩] := by
  rw [(fetch_truncates_to_limit 2 _ rfl).1]
  rfl

/-- C8: The rendered message holds at most 30 topic rows, and exactly 30
when the batch holds 50. -/
theorem html_rows_capped_at_thirty (topics : List Topic) :
    (generateTopicRows topics).length ≤ 30 ∧
    (topics.length = 50 → (generateTopicRows topics).length = 30) := by
  have hlen : (generateTopicRows topics).length = min 30 topics.length := by
    simp [generateTopicRows]
  constructor
  · rw [hlen]
    exact Nat.min_le_left 30 topics.length
  · intro h50
    rw [hlen, h50]
    decide

/-- C8 witness: a batch of 50 topics renders exactly 30 rows. -/
theorem html_rows_capped_at_thirty_witness :
    (generateTopicRows (List.replicate 50 ⟨"热", "w", "12345"⟩)).length =
      30 :=
  (html_rows_capped_at_thirty _).2 (by simp)

/-- C9: When fetch sees a provider error code, the orchestrator ends in
`Aborted("fetch")` and neither the Summarizer nor the Notifier is
constructed or called. -/
theorem fetch_error_aborts_pipeline_early
    (env : FetchEnvelope) (api : String → AttemptResult)
    (smtp : Nat → SmtpOutcome) (h : env.code ≠ some 200) :
    mainPipeline (.envelope env) api smtp =
      (.Aborted "fetch", [.fetchCall]) ∧
    Event.summarizerInit ∉ (mainPipeline (.envelope env) api smtp).2 ∧
    Event.summarizeCall ∉ (mainPipeline (.envelope env) api smtp).2 ∧
    Event.notifierInit ∉ (mainPipeline (.envelope env) api smtp).2 ∧
    Event.deliverCall ∉ (mainPipeline (.envelope env) api smtp).2 := by
  have hm : mainPipeline (.envelope env) api smtp =
      (.Aborted "fetch", [.fetchCall]) := by
    simp [mainPipeline, fetchHotTopics, h]
  refine ⟨hm, ?_, ?_, ?_, ?_⟩ <;> rw [hm] <;> decide

/-- C9 witness: a concrete provider-rejected run. -/
theorem fetch_error_aborts_pipeline_early_witness :
    mainPipeline
        (.envelope { code := some 250, msg := some "error", list := [] })
        (fun _ => .ok (.text "s")) (fun _ => .delivered) =
      (.Aborted "fetch", [.fetchCall]) :=
  (fetch_error_aborts_pipeline_early _ _ _ (by decide)).1

/-- C10: Each stage is total at the orchestrator interface: every
modelled exception path of fetch returns the plain empty list, a provider
error and a genuinely empty ranking yield the same empty-list value, the
summarizer's exception paths return `None`, and the notifier returns
`False` whenever no attempt delivers — no exception crosses a stage
boundary. -/
theorem stages_total_at_interface :
    (∀ (limit : Nat) (msg : String),
      (fetchHotTopics limit (.requestError msg)).topics = []) ∧
    (∀ (limit : Nat) (msg : String),
      (fetchHotTopics limit (.otherError msg)).topics = []) ∧
    (∀ (limit : Nat) (env : FetchEnvelope), env.code ≠ some 200 →
      (fetchHotTopics limit (.envelope env)).topics = []) ∧
    (∀ (limit : Nat) (env envEmpty : FetchEnvelope),
      env.code ≠ some 200 → envEmpty.code = some 200 →
      envEmpty.list = [] →
      (fetchHotTopics limit (.envelope env)).topics =
        (fetchHotTopics limit (.envelope envEmpty)).topics) ∧
    (∀ (topics : List Topic) (api : String → AttemptResult) (msg : String),
      api (weiboPrompt (weiboContent topics)) = .exn msg →
      (weiboSummarize topics api).result = none) ∧
    (∀ (topics : List Topic) (api : String → AttemptResult)
        (r : ApiResponse),
      api (weiboPrompt (weiboContent topics)) = .ok r →
      (∀ s, r ≠ .text s) →
      (weiboSummarize topics api).result = none) ∧
    (∀ script : Nat → SmtpOutcome,
      (∀ i, script i ≠ SmtpOutcome.delivered) →
      (sendEmail script).ok = false) := by
  refine ⟨?_, ?_, ?_, ?_, ?_, ?_, ?_⟩
  · intro limit msg
    simp [fetchHotTopics]
  · intro limit msg
    simp [fetchHotTopics]
  · intro limit env h
    simp [fetchHotTopics, h]
  · intro limit env envE h h2 h3
    simp [fetchHotTopics, h, h2, h3]
  · intro topics api msg h
    simp [weiboSummarize, h]
  · intro topics api r h hr
    rcases r with _ | _ | _ | s
    · simp [weiboSummarize, h]
    · simp [weiboSummarize, h]
    · simp [weiboSummarize, h]
    · exact absurd rfl (hr s)
  · intro script h
    rcases h0 : script 0 with _ | m0 | m0
    · exact absurd h0 (h 0)
    · rcases h1 : script 1 with _ | m1 | m1
      · exact absurd h1 (h 1)
      · rcases h2 : script 2 with _ | m2 | m2
        · exact absurd h2 (h 2)
        · simp [sendEmail, sendLoop, h0, h1, h2]
        · simp [sendEmail, sendLoop, h0, h1, h2]
      · simp [sendEmail, sendLoop, h0, h1]
    · simp [sendEmail, sendLoop, h0]

/-- C10 witness: concrete exception scenarios for each stage. -/
theorem stages_total_at_interface_witness :
    (fetchHotTopics 50 (.requestError "Connection timed out")).topics =
        [] ∧
    (weiboSummarize [] (fun _ => .exn "boom")).result = none ∧
    (sendEmail (fun _ => SmtpOutcome.otherExn "boom")).ok = false := by
  refine ⟨stages_total_at_interface.1 50 "Connection timed out", ?_, ?_⟩
  · exact stages_total_at_interface.2.2.2.2.1 [] _ "boom" rfl
  · exact stages_total_at_interface.2.2.2.2.2.2 _ (fun i => by simp)

end WeiboTrending
